import Mathlib

/-!
Shallow embedding of the `cloud_common` repository (OpenAgricultureFoundation),
covering the pieces of the code that the verified properties are about:

* `cc/google/datastore.py` — the sharded entity naming scheme and the
  save / query helpers (`get_sharded_kind`, `save_dict_to_entity`,
  `get_sharded_entities`, `save_device_data`, `get_device_data`);
* `cc/notifications/scheduler.py` — the `Scheduler` class;
* `cc/notifications/notification_data.py` — the `NotificationData` class;
* `cc/notifications/runs.py` — the `Runs` class;
* `cc/google/database.py` — the history / current-value readers;
* `cc/mqtt/local_mqtt_messaging.py` — message validation and dispatch.

Modelling conventions, justified against the source:

* Timestamps.  The code stores UTC timestamps as fixed-width, zero-padded
  strings (`%FT%XZ` = `YYYY-MM-DDTHH:MM:SSZ`) and compares them with string
  comparison, which on that format agrees with chronological order
  (`scheduler.py` line 289: `now_str >= cmd.get(self.run_at_key)`).
  We model instants as `Nat` and comparisons as `≤` on `Nat`; hour offsets
  (`dt.timedelta(hours=n)`) become `+ n`.
* Entity keys.  `save_dict_to_entity` keys every saved entity by the wall
  clock at the moment of the save (`timestamp = dt.datetime.utcnow()
  .isoformat()`, microsecond resolution, used as the datastore key).  We
  model the wall clock as a counter `clock : Nat` threaded through the
  state; each save consumes the current value as key/timestamp and
  increments it, so successive saves always get distinct, strictly
  increasing keys — exactly the generic real execution, where successive
  `utcnow()` calls at microsecond resolution differ.
* Shard contents and read order.  A shard (`kind_property_device`) is a
  key→entity map; every read goes through `get_sharded_entities`, which
  sorts by the `timestamp` property descending (newest first).  We
  represent a shard as a `List` held in exactly that scan order; since
  every save's timestamp exceeds all stored ones, a save conses the new
  entity at the front, and `get_sharded_entities` is the identity on the
  representation.  A datastore delete-by-key removes the entity with that
  key.
-/

namespace CloudCommon

/-- `datastore.get_sharded_kind` (datastore.py:16-17):
`f'{kind}_{property_name}_{device_uuid}'`. -/
def get_sharded_kind (kind property_name device_uuid : String) : String :=
  kind ++ "_" ++ property_name ++ "_" ++ device_uuid

/-- One stored datastore entity of a `DeviceData_<property>_<device>` shard,
as written by `datastore.save_dict_to_entity` (datastore.py:731-758): the
entity is keyed by the save timestamp and carries two properties, the `data`
dict (of type `α`, one record shape per shard) and the `timestamp`. -/
structure Entity (α : Type) where
  key : Nat
  data : α
  timestamp : Nat
deriving Repr, DecidableEq

/-- Datastore `put` is an upsert by key: it replaces the entity holding the
same key, otherwise inserts.  Our saves always use a fresh key/timestamp
strictly larger than every stored one, so the insert branch places the new
entity at the front, keeping the shard in newest-first scan order. -/
def dsPut {α : Type} (e : Entity α) (l : List (Entity α)) : List (Entity α) :=
  if l.any (fun x => x.key == e.key) then
    l.map (fun x => if x.key == e.key then e else x)
  else
    e :: l

/-- The schedule record stored in `DeviceData_schedule_<device_ID>`
(scheduler.py:19-28): `{command, message, run_at, repeat, count, URL}`.
`command` is `Option` because `Scheduler.check` explicitly handles records
without a `command` key (scheduler.py:284-286); the remaining keys are
always written by `Scheduler.add` / `update_command` and read with
defaults.  `repeat_` carries the source's `repeat` field (a Lean keyword). -/
structure CmdDict where
  command : Option String
  message : String
  run_at : Nat
  repeat_ : Nat
  count : Nat
  URL : Option String
deriving Repr, DecidableEq

/-- A notification record stored in `DeviceData_notifications_<device_ID>`
(notification_data.py:19-24): `{ID, type, message, created, URL}`. -/
structure NotifDict where
  ID : Nat
  ntype : String
  message : String
  created : Nat
  URL : Option String
deriving Repr, DecidableEq

/-- The slice of datastore state the scheduler touches for one device: its
schedule shard, its notifications shard (written through
`NotificationData.add`), and the wall clock used to key saved entities.
Both shards are held in the newest-first order that `get_sharded_entities`
returns. -/
structure SchedState where
  schedule : List (Entity CmdDict)
  notifications : List (Entity NotifDict)
  clock : Nat
deriving Repr, DecidableEq

/-- `datastore.save_device_data` for the schedule shard
(datastore.py:764-766 calling save_dict_to_entity at 731-758): builds an
entity keyed by the current wall clock, with the dict under `data` and the
clock under `timestamp`, and puts it. -/
def save_schedule_data (d : CmdDict) (s : SchedState) : SchedState :=
  { s with schedule := dsPut ⟨s.clock, d, s.clock⟩ s.schedule,
           clock := s.clock + 1 }

/-- `datastore.save_device_data` for the notifications shard. -/
def save_notification_data (d : NotifDict) (s : SchedState) : SchedState :=
  { s with notifications := dsPut ⟨s.clock, d, s.clock⟩ s.notifications,
           clock := s.clock + 1 }

/-- `utils.id_generator` is not under `src/`.  Modelled from the spec: §4.4
says `add` "generates a short random token as the notification ID"; we model
the token source as the (fresh) wall-clock counter.  No proved claim depends
on the token's value, only on how many notification records exist and on
scans over given ID values. -/
def id_generator (s : SchedState) : Nat := s.clock

/-- `NotificationData.add` (notification_data.py:61-78): builds a fresh
notification dict (ID from the generator, `created` = now, default type
"Done") and appends it to the notifications shard via `save_device_data`. -/
def NotificationData.add (message : String) (URL : Option String)
    (s : SchedState) : SchedState :=
  save_notification_data
    { ID := id_generator s, ntype := "Done", message := message,
      created := s.clock, URL := URL } s

/-- One row of the static `Scheduler.commands` table
(scheduler.py:52-70): `{message, default_repeat_hours, URL}`. -/
structure CommandTemplate where
  message : String
  default_repeat_hours : Nat
  URL : Option String
deriving Repr, DecidableEq

namespace Scheduler

def check_fluid_command : String := "check_fluid"
def take_measurements_command : String := "take_measurements"
def harvest_plant_command : String := "harvest_plant"
def prune_plant_command : String := "prune_plant"

/-- The static command table `Scheduler.commands` (scheduler.py:52-70). -/
def commands : List (String × CommandTemplate) :=
  [ (check_fluid_command,
      { message := "Check your fluid level", default_repeat_hours := 48,
        URL := none }),
    (take_measurements_command,
      { message := "Record your plant measurements",
        default_repeat_hours := 24, URL := none }),
    (harvest_plant_command,
      { message := "Time to harvest your plant", default_repeat_hours := 0,
        URL := none }),
    (prune_plant_command,
      { message := "Time to prune your plant", default_repeat_hours := 48,
        URL := some "https://www.youtube.com/watch?v=9noUUTuPh3E" }) ]

/-- `self.commands.get(command)`: table lookup. -/
def commandsLookup (command : String) : Option CommandTemplate :=
  (commands.find? (fun p => p.1 == command)).map (·.2)

/-- `Scheduler.__validate_command` (scheduler.py:99-102): `command in
self.commands`.  Takes an `Option` because `update_command` and `__execute`
pass `cmd_dict.get('command')`, which may be `None` (never in the table). -/
def validate_command : Option String → Bool
  | some c => (commandsLookup c).isSome
  | none => false

/-- `Scheduler.get_command_entity` (scheduler.py:116-132): validate, then
scan the schedule shard entities (newest first) and return the first whose
`data.command` equals the requested command, else `None`. -/
def get_command_entity (command : String) (s : SchedState) :
    Option (Entity CmdDict) :=
  if validate_command (some command) then
    s.schedule.find? (fun e => e.data.command == some command)
  else
    none

/-- `Scheduler.remove_command` (scheduler.py:186-193): look the command's
entity up; if present, datastore-delete it by key. -/
def remove_command (command : String) (s : SchedState) : SchedState :=
  match get_command_entity command s with
  | none => s
  | some e =>
      { s with schedule := s.schedule.filter (fun x => x.key != e.key) }

/-- `remove_command` applied to the possibly-missing `cmd.get('command')`
value: a `None` command fails `__validate_command` inside
`get_command_entity`, so nothing is deleted. -/
def remove_command_opt : Option String → SchedState → SchedState
  | some c, s => remove_command c s
  | none, s => s

/-- `Scheduler.update_command` (scheduler.py:214-223): validate
`cmd_dict.get('command')`; if valid, delete any existing entity for that
command, then save the dict as a new entity. -/
def update_command (cmd_dict : CmdDict) (s : SchedState) : SchedState :=
  match cmd_dict.command with
  | none => s
  | some c =>
      if validate_command (some c) then
        save_schedule_data cmd_dict (remove_command c s)
      else
        s

/-- `Scheduler.add` (scheduler.py:138-167).  `now` is `utcnow()` in hours;
`repeat_hours` keeps the source's `int = -1` default convention (`Int`,
negative means "use the table default").  Note the source saves the new
dict twice: once inside `update_command` (line 163) and once directly
(line 166). -/
def add (now : Nat) (command : String) (repeat_hours : Int)
    (s : SchedState) : SchedState :=
  match commandsLookup command with
  | none => s
  | some template =>
      let rep : Nat :=
        if repeat_hours ≥ 0 then repeat_hours.toNat
        else template.default_repeat_hours
      let cmd_dict : CmdDict :=
        { command := some command, message := template.message,
          run_at := now + rep, repeat_ := rep, count := 0,
          URL := template.URL }
      save_schedule_data cmd_dict (update_command cmd_dict s)

/-- `Scheduler.create_notification` (scheduler.py:172-181): validate, then
add one notification with the template's message and URL (note
`template.get(self.URL_key, '')` returns the stored value — possibly
`None` — because the `URL` key is present in every table row). -/
def create_notification (command : String) (s : SchedState) : SchedState :=
  match commandsLookup command with
  | none => s
  | some template => NotificationData.add template.message template.URL s

/-- `Scheduler.remove_all_commands` (scheduler.py:198-208): delete every
entity of the schedule shard. -/
def remove_all_commands (s : SchedState) : SchedState :=
  { s with schedule := [] }

/-- `Scheduler.__execute` (scheduler.py:236-267): emit one notification;
for `take_measurements` reset the re-arm interval to the table default;
then either delete the one-shot command (`repeat == 0`) or bump `count`,
set `run_at = now + interval`, and replace the entry via
`update_command`. -/
def execute (now : Nat) (cmd : CmdDict) (s : SchedState) : SchedState :=
  let s1 := NotificationData.add cmd.message cmd.URL s
  let default_repeat : Nat :=
    if cmd.command == some take_measurements_command then
      match commandsLookup take_measurements_command with
      | some template => template.default_repeat_hours
      | none => 0
    else cmd.repeat_
  if cmd.repeat_ == 0 then
    remove_command_opt cmd.command s1
  else
    update_command
      { cmd with count := cmd.count + 1, run_at := now + default_repeat } s1

/-- The loop body of `Scheduler.check` (scheduler.py:283-291), iterating
over the snapshot of schedule dicts taken before any execution: skip
records without a `command` key, execute those with `run_at <= now`. -/
def checkLoop (now : Nat) : List CmdDict → SchedState → SchedState
  | [], s => s
  | cmd :: rest, s =>
      match cmd.command with
      | none => checkLoop now rest s
      | some _ =>
          if cmd.run_at ≤ now then checkLoop now rest (execute now cmd s)
          else checkLoop now rest s

/-- `Scheduler.check` (scheduler.py:272-291): `now` is
`utcnow() + testing_hours`; load the schedule dicts
(`__get_schedule` = `get_device_data`, i.e. the `data` of the shard's
entities newest first), then run the loop. -/
def check (now : Nat) (s : SchedState) : SchedState :=
  checkLoop now (s.schedule.map (·.data)) s

end Scheduler

/-- `NotificationData.ack` (notification_data.py:90-102): scan the
notifications shard in query order (newest first), datastore-delete the
first entity whose `data.ID` equals the given ID, and `break`.  Keys are
unique within a shard, so the delete removes exactly the scanned entity and
leaves the already-scanned prefix and the unscanned suffix unchanged. -/
def NotificationData.ack (notification_ID : Nat) :
    List (Entity NotifDict) → List (Entity NotifDict)
  | [] => []
  | e :: rest =>
      if e.data.ID == notification_ID then rest
      else e :: NotificationData.ack notification_ID rest

/-- The run record stored in `DeviceData_runs_<device_ID>` (runs.py:18-26):
`{start, end, recipe_name}`; `start`/`end` are nullable timestamps (`end`
spelled `end_`, a Lean keyword). -/
structure RunDict where
  start : Option Nat
  end_ : Option Nat
  recipe_name : String
deriving Repr, DecidableEq

/-- The runs shard of one device plus the wall clock, as for `SchedState`. -/
structure RunsState where
  runs : List (Entity RunDict)
  clock : Nat
deriving Repr, DecidableEq

namespace Runs

/-- `Runs.start` (runs.py:83-88): save `{start: now, end: None,
recipe_name}` as a new entity via `save_device_data`. -/
def start (recipe_name : String) (s : RunsState) : RunsState :=
  { s with
      runs := dsPut
        ⟨s.clock,
         { start := some s.clock, end_ := none, recipe_name := recipe_name },
         s.clock⟩ s.runs,
      clock := s.clock + 1 }

/-- `Runs.stop` (runs.py:95-112): fetch only the most recent raw entity
(`get_sharded_entities(..., count=1)`); if none, log and return; otherwise
set the `end` field of its `data` dict to now and `put` the entity back
under its existing key (an in-place update, not an append). -/
def stop (s : RunsState) : RunsState :=
  match s.runs.take 1 with
  | [] => s
  | e :: _ =>
      { s with
          runs := dsPut { e with data := { e.data with end_ := some s.clock } }
                    s.runs,
          clock := s.clock + 1 }

end Runs

/-! ### database.py — history and current-value readers -/

/-- One `{timestamp, value}` record of a per-property value list inside the
legacy unsharded `DeviceData` entity read by `database.py` (via
`get_by_key_from_DS('DeviceData', device_uuid)`).  `utils.bytes_to_string`
(not under src/) decodes stored bytes; on the string values modelled here it
is the identity, so it is elided. -/
structure ValRecord where
  timestamp : String
  value : String
deriving Repr, DecidableEq

/-- The legacy `DeviceData` entity: a dict from property-name keys (such as
`air_carbon_dioxide_ppm`) to value lists; `none` = key absent. -/
def DeviceDataEntity : Type := String → Option (List ValRecord)

/-- The `DeviceData` kind of the datastore, keyed by device uuid:
`get_by_key_from_DS` (datastore.py:219-227) returns `none` when no entity
with that key exists — in particular for every device with no stored
data. -/
def DeviceDataStore : Type := String → Option DeviceDataEntity

-- Property-name keys (datastore.py:40-50).
def DS_co2_KEY : String := "air_carbon_dioxide_ppm"
def DS_rh_KEY : String := "air_humidity_percent"
def DS_temp_KEY : String := "air_temperature_celsius"
def DS_led_KEY : String := "light_spectrum_nm_percent"
def DS_h20_ec_KEY : String := "water_electrical_conductivity_ms_cm"
def DS_h20_ph_KEY : String := "water_potential_hydrogen"
def DS_h20_temp_KEY : String := "water_temperature_celcius"

/-- A `{'value': ..., 'time': ...}` row returned by the history readers. -/
structure HistEntry where
  value : String
  time : String
deriving Repr, DecidableEq

/-- `database.get_co2_history` (database.py:96-111): `None`/`'None'` device
uuid short-circuits to `[]`; a missing `DeviceData` entity or a missing
co2 key yields `[]`; otherwise each stored record becomes
`{'value': value, 'time': timestamp}`. -/
def get_co2_history (store : DeviceDataStore) (device_uuid : Option String) :
    List HistEntry :=
  match device_uuid with
  | none => []
  | some u =>
      if u == "None" then []
      else
        match store u with
        | none => []
        | some device_data =>
            match device_data DS_co2_KEY with
            | none => []
            | some valuesList =>
                valuesList.map (fun val => { value := val.value,
                                             time := val.timestamp })

/-- `database.get_led_panel_history` (database.py:117-131).  (In the
source the led key is referenced as a bare `DS_led_KEY`, an undefined name
in that module, so CPython raises `NameError` whenever `device_data` is not
`None`; the short-circuit `device_data is None or ...` makes the no-data
path — the only one any claim exercises — return `[]` before that name is
evaluated.  The data path below models the evident intended lookup.) -/
def get_led_panel_history (store : DeviceDataStore)
    (device_uuid : Option String) : List String :=
  match device_uuid with
  | none => []
  | some u =>
      if u == "None" then []
      else
        match store u with
        | none => []
        | some device_data =>
            match device_data DS_led_KEY with
            | none => []
            | some valuesList => valuesList.map (fun val => val.value)

/-- The `{'RH': [...], 'temp': [...]}` dict returned by
`get_temp_and_humidity_history`. -/
structure TempHumidityHistory where
  RH : List HistEntry
  temp : List HistEntry
deriving Repr, DecidableEq

/-- `database.get_temp_and_humidity_history` (database.py:137-170). -/
def get_temp_and_humidity_history (store : DeviceDataStore)
    (device_uuid : Option String) : TempHumidityHistory :=
  match device_uuid with
  | none => { RH := [], temp := [] }
  | some u =>
      if u == "None" then { RH := [], temp := [] }
      else
        match store u with
        | none => { RH := [], temp := [] }
        | some device_data =>
            match device_data DS_temp_KEY, device_data DS_rh_KEY with
            | none, none => { RH := [], temp := [] }
            | tvals, rhvals =>
                { temp := ((tvals.getD []).map (fun val =>
                    ({ value := val.value, time := val.timestamp } :
                      HistEntry))),
                  RH := ((rhvals.getD []).map (fun val =>
                    ({ value := val.value, time := val.timestamp } :
                      HistEntry))) }

/-- The `"{0:.2f}".format(float(value))` formatting in
`get_current_float_value_from_DS` (database.py:188).  The float
parse/round-trip is kept as the raw value string: no claim inspects the
formatted digits, only whether a value is returned at all. -/
def format_two_decimals (value : String) : String := value

/-- `database.get_current_float_value_from_DS` (database.py:175-189):
`None` for a `None`/`'None'` uuid, for a missing `DeviceData` entity, or
for a missing key; otherwise the most recent (first) record's value,
2-decimal formatted.  (With the key present but its list empty, the source
raises `IndexError` at `valuesList[0]`; that path is unreachable for every
claim, which only exercise the no-data store.) -/
def get_current_float_value_from_DS (key : String) (store : DeviceDataStore)
    (device_uuid : Option String) : Option String :=
  match device_uuid with
  | none => none
  | some u =>
      if u == "None" then none
      else
        match store u with
        | none => none
        | some device_data =>
            match device_data key with
            | none => none
            | some valuesList =>
                match valuesList with
                | [] => none
                | val :: _ => some (format_two_decimals val.value)

/-- `database.get_current_CO2_value` (database.py:195-196). -/
def get_current_CO2_value (store : DeviceDataStore)
    (device_uuid : Option String) : Option String :=
  get_current_float_value_from_DS DS_co2_KEY store device_uuid

/-- `database.get_current_temp_value` (database.py:202-203). -/
def get_current_temp_value (store : DeviceDataStore)
    (device_uuid : Option String) : Option String :=
  get_current_float_value_from_DS DS_temp_KEY store device_uuid

/-- `database.get_current_RH_value` (database.py:209-210). -/
def get_current_RH_value (store : DeviceDataStore)
    (device_uuid : Option String) : Option String :=
  get_current_float_value_from_DS DS_rh_KEY store device_uuid

/-- `database.get_current_EC_value` (database.py:212-213). -/
def get_current_EC_value (store : DeviceDataStore)
    (device_uuid : Option String) : Option String :=
  get_current_float_value_from_DS DS_h20_ec_KEY store device_uuid

/-- `database.get_current_pH_value` (database.py:215-216). -/
def get_current_pH_value (store : DeviceDataStore)
    (device_uuid : Option String) : Option String :=
  get_current_float_value_from_DS DS_h20_ph_KEY store device_uuid

/-- `database.get_current_h2o_temp_value` (database.py:218-219). -/
def get_current_h2o_temp_value (store : DeviceDataStore)
    (device_uuid : Option String) : Option String :=
  get_current_float_value_from_DS DS_h20_temp_KEY store device_uuid

/-! ### local_mqtt_messaging.py — message validation and dispatch -/

namespace MQTTMessaging

/-- An inbound pubsub message, restricted to the keys
`MQTTMessaging` reads (local_mqtt_messaging.py:34-55).  A field is `none`
when the key is absent from the dict; `utils.key_in_dict` (not under src/)
is, per its name and the spec's "mandatory-field set" wording, key
presence, i.e. `isSome` here.  Key values the code only passes through are
kept as strings. -/
structure Message where
  messageType : Option String
  var : Option String
  values : Option String
  varName : Option String
  imageType : Option String
  fileName : Option String
  action : Option String
  name : Option String
deriving Repr, DecidableEq

def messageType_EnvVar : String := "EnvVar"
def messageType_CommandReply : String := "CommandReply"
def messageType_Image : String := "Image"
def messageType_ImageUpload : String := "ImageUpload"
def messageType_RecipeEvent : String := "RecipeEvent"

/-- `MQTTMessaging.get_message_type` (local_mqtt_messaging.py:163-186):
the `messageType` value if present and one of the five recognized
constants, else `None`. -/
def get_message_type (message : Message) : Option String :=
  match message.messageType with
  | none => none
  | some t =>
      if t == messageType_EnvVar then some messageType_EnvVar
      else if t == messageType_CommandReply then some messageType_CommandReply
      else if t == messageType_Image then some messageType_Image
      else if t == messageType_ImageUpload then some messageType_ImageUpload
      else if t == messageType_RecipeEvent then some messageType_RecipeEvent
      else none

/-- `MQTTMessaging.validate_message` (local_mqtt_messaging.py:130-158).
The source is a sequence of early `return False` checks; each
`if not (a or b): return False` appears here as the corresponding `||`
conjunct.  Note the source requires, for each message type, only *at least
one* of the type's keys (`or`, not `and`). -/
def validate_message (message : Message) : Bool :=
  if message.messageType.isNone then false
  else
    match get_message_type message with
    | none => false
    | some message_type =>
        (if message_type == messageType_EnvVar
            || message_type == messageType_CommandReply then
          message.var.isSome || message.values.isSome
        else true)
        &&
        (if message_type == messageType_Image
            || message_type == messageType_ImageUpload then
          message.varName.isSome || message.imageType.isSome
            || message.fileName.isSome
        else true)
        &&
        (if message_type == messageType_RecipeEvent then
          message.action.isSome || message.name.isSome
        else true)

/-- One write to the influx time-series sink
(`self.influx.write_points([valueToSave])`).  Only the identifying parts of
the point are recorded; the full field/tag encoding is not needed by any
claim, which only count and locate writes. -/
inductive Write where
  | envVarPoint (device_ID varName values measurement : String)
  | imagePoint (device_ID fileName : String)
deriving Repr, DecidableEq

/-- `MQTTMessaging.save_data_to_Device` (local_mqtt_messaging.py:240-286):
only `EnvVar`/`CommandReply` messages with both `var` and `values` keys
produce a write; command replies use the variable name as the influx
measurement, env vars use `"env_vars"`.  (The value/name extraction from
the `values` string is recorded raw in the point; exceptions anywhere in
the body are caught and produce no write.) -/
def save_data_to_Device (pydict : Message) (deviceId : String) :
    List Write :=
  match get_message_type pydict with
  | some message_type =>
      if message_type == messageType_EnvVar
          || message_type == messageType_CommandReply then
        match pydict.var, pydict.values with
        | some varName, some values =>
            [Write.envVarPoint deviceId varName values
              (if message_type == messageType_CommandReply then varName
               else "env_vars")]
        | _, _ => []
      else []
  | none => []

/-- `MQTTMessaging.save_uploaded_image` (local_mqtt_messaging.py:342-374):
only `ImageUpload` messages with both `varName` and `fileName` keys
produce a write, and only when the file name splits on `_` into exactly
the four expected parts (otherwise the tuple unpacking raises, the
exception is caught, and nothing is written). -/
def save_uploaded_image (pydict : Message) (deviceId : String) :
    List Write :=
  match get_message_type pydict with
  | some message_type =>
      if message_type == messageType_ImageUpload then
        match pydict.varName, pydict.fileName with
        | some _, some file_name =>
            match file_name.splitOn "_" with
            | [_, _, _, _] => [Write.imagePoint deviceId file_name]
            | _ => []
        | _, _ => []
      else []
  | none => []

/-- `MQTTMessaging.parse` (local_mqtt_messaging.py:77-124): drop messages
failing validation (no write); route `ImageUpload` to
`save_uploaded_image`, everything else to `save_data_to_Device`.  The
result is the list of writes performed. -/
def parse (device_ID : String) (message : Message) : List Write :=
  if ¬ validate_message message then []
  else if get_message_type message == some messageType_ImageUpload then
    save_uploaded_image message device_ID
  else
    save_data_to_Device message device_ID

end MQTTMessaging

/-! ## Theorems -/

/-- The empty per-device datastore slice (no schedule entries, no
notifications), with the wall clock at 0. -/
def emptySchedState : SchedState := { schedule := [], notifications := [], clock := 0 }

/-- A `DeviceData` store holding no entity for any device: the situation of
a device that has no stored data. -/
def emptyDeviceDataStore : DeviceDataStore := fun _ => none

/-- C1: the claim says every sequence of scheduler operations leaves at most
one schedule record per (device, command) name.  The code refutes it — and
contradicts its own comment "Commands, there can only be one of each per
device" (scheduler.py:51) — because `Scheduler.add` saves the new dict
twice, once inside `update_command` (line 163) and once directly (line 166),
under two distinct save timestamps: a single `add` of `check_fluid` on an
empty shard leaves two stored records with `command = "check_fluid"`. -/
theorem add_check_fluid_stores_two_records :
    ((Scheduler.add 0 Scheduler.check_fluid_command (-1)
        emptySchedState).schedule.map (fun e => e.data.command)) =
      [some Scheduler.check_fluid_command, some Scheduler.check_fluid_command] := by
  rfl

/-- C2: the claim says that after `add(device, "check_fluid")` stores an
entry with `run_at = R`, `repeat = H > 0`, `count = C`, one `check` at time
`≥ R` emits exactly one notification and replaces the entry by one with
`count = C + 1` and `run_at = R + H`.  The code refutes it: `add` at time 0
stores the entry twice (`R = 48`, `H = 48`, `C = 0`), so `check` at time 48
emits two notifications and leaves two records — the updated one
(`count = 1`, `run_at = 96`) and a stale duplicate (`count = 0`,
`run_at = 48`); moreover `check` at time 49 re-arms to `run_at = now + H =
97`, not `R + H = 96`. -/
theorem check_after_add_check_fluid_emits_two_notifications :
    ((Scheduler.check 48 (Scheduler.add 0 Scheduler.check_fluid_command (-1)
        emptySchedState)).notifications.length = 2
      ∧ ((Scheduler.check 48 (Scheduler.add 0 Scheduler.check_fluid_command
            (-1) emptySchedState)).schedule.map
          (fun e => (e.data.count, e.data.run_at))) = [(1, 96), (0, 48)])
    ∧ ((Scheduler.check 49 (Scheduler.add 0 Scheduler.check_fluid_command
          (-1) emptySchedState)).schedule.map (fun e => e.data.run_at))
        = [97, 48] := by
  exact ⟨⟨rfl, rfl⟩, rfl⟩

/-- C9: the claim (like the comment at scheduler.py:247-248, "the first
repeat time is a week, then it repeats every default (48) hours") says the
first-fire interval of a default `add(device, take_measurements)` differs
from the steady-state re-arm interval.  The code refutes it: the table
entry's `default_repeat_hours` is 24, `add` with the default arms
`run_at = now + 24`, and `__execute`'s special case re-arms with the same
table value 24 — after `add` at time 0 both stored records have
`run_at = 24` (first interval 24 h), and `check` at time 24 re-arms the
fired entry to `run_at = 48` (steady interval also 24 h). -/
theorem take_measurements_first_interval_equals_rearm_interval :
    ((Scheduler.add 0 Scheduler.take_measurements_command (-1)
        emptySchedState).schedule.map (fun e => e.data.run_at)) = [24, 24]
    ∧ ((Scheduler.check 24 (Scheduler.add 0
          Scheduler.take_measurements_command (-1)
          emptySchedState)).schedule.map
        (fun e => (e.data.run_at, e.data.count))) = [(48, 1), (24, 0)] := by
  exact ⟨rfl, rfl⟩

/-- C3 (counterexample): the claim asserts joint injectivity — for a fixed
kind, two calls differing in device uuid or in property name never return
the same shard name.  Because the three components are joined with a plain
`_` and property names themselves contain `_`, the boundary is ambiguous:
`(kind, "a_b", "c")` and `(kind, "a", "b_c")` differ in both property and
device yet collide. -/
theorem get_sharded_kind_collision :
    get_sharded_kind "DeviceData" "a_b" "c"
        = get_sharded_kind "DeviceData" "a" "b_c"
      ∧ ("a_b" : String) ≠ "a" ∧ ("c" : String) ≠ "b_c" := by
  exact ⟨rfl, by decide, by decide⟩

/-- C3 (amended): `get_sharded_kind` is pure and deterministic (equal
triples give equal names), and it is injective in each component
separately: for a fixed kind and property, distinct devices give distinct
names, and for a fixed kind and device, distinct properties give distinct
names.  (Joint injectivity in (property, device) fails, see the
counterexample.) -/
theorem get_sharded_kind_deterministic_and_injective :
    (∀ kind property_name device_uuid : String,
        get_sharded_kind kind property_name device_uuid
          = get_sharded_kind kind property_name device_uuid)
    ∧ (∀ kind property_name d d' : String,
        get_sharded_kind kind property_name d
            = get_sharded_kind kind property_name d' → d = d')
    ∧ (∀ kind p p' device_uuid : String,
        get_sharded_kind kind p device_uuid
            = get_sharded_kind kind p' device_uuid → p = p') := by
  refine ⟨fun _ _ _ => rfl, ?_, ?_⟩
  · intro kind property_name d d' h
    have h2 := congrArg String.data h
    simp only [get_sharded_kind, String.data_append] at h2
    exact String.ext (List.append_cancel_left h2)
  · intro kind p p' device_uuid h
    have h2 := congrArg String.data h
    simp only [get_sharded_kind, String.data_append] at h2
    exact String.ext (List.append_cancel_left
      (List.append_cancel_right (List.append_cancel_right h2)))

/-- Witness for the amended C3 theorem at concrete inputs. -/
theorem get_sharded_kind_injective_witness :
    ("dev-1" : String) = "dev-1" ∧ ("schedule" : String) = "schedule" :=
  ⟨get_sharded_kind_deterministic_and_injective.2.1
      "DeviceData" "schedule" "dev-1" "dev-1" rfl,
   get_sharded_kind_deterministic_and_injective.2.2
      "DeviceData" "schedule" "schedule" "dev-1" rfl⟩

/-- A save whose key is fresh (larger than every stored key) inserts at the
front of the scan-order list: the generic behaviour of `dsPut`, since the
wall clock strictly exceeds every stored save timestamp. -/
theorem dsPut_fresh {α : Type} (e : Entity α) (l : List (Entity α))
    (h : ∀ x ∈ l, x.key < e.key) : dsPut e l = e :: l := by
  have hany : l.any (fun x => x.key == e.key) = false := by
    simp only [List.any_eq_false]
    intro x hx
    simpa using Nat.ne_of_lt (h x hx)
  simp [dsPut, hany]

/-- C7: starting a run ("Demo") on a device with an empty runs shard and
then stopping it leaves exactly one stored run record, with non-null
`start`, non-null `end`, recipe name "Demo", and `end ≥ start` (the clock
only moves forward between the two calls). -/
theorem start_stop_yields_single_completed_run (c : Nat) :
    ((Runs.stop (Runs.start "Demo" ⟨[], c⟩)).runs.map (fun e => e.data))
        = [{ start := some c, end_ := some (c + 1), recipe_name := "Demo" }]
      ∧ c ≤ c + 1 := by
  refine ⟨?_, Nat.le_succ c⟩
  simp [Runs.start, Runs.stop, dsPut]

/-- C8: `NotificationData.ack` deletes at most one entity — exactly the
first one in scan order whose ID matches — and leaves every other entity,
including later duplicates of the same ID, unchanged; with no match it
deletes nothing. -/
theorem ack_deletes_first_match_only :
    (∀ (nid : Nat) (pre post : List (Entity NotifDict))
        (e : Entity NotifDict),
        (∀ x ∈ pre, x.data.ID ≠ nid) → e.data.ID = nid →
        NotificationData.ack nid (pre ++ e :: post) = pre ++ post)
    ∧ (∀ (nid : Nat) (l : List (Entity NotifDict)),
        (∀ x ∈ l, x.data.ID ≠ nid) → NotificationData.ack nid l = l) := by
  constructor
  · intro nid pre post e hpre he
    induction pre with
    | nil => simp [NotificationData.ack, he]
    | cons a as ih =>
        have ha : a.data.ID ≠ nid := hpre a (by simp)
        have ih' := ih (fun x hx => hpre x (by simp [hx]))
        simp [NotificationData.ack, ha, ih']
  · intro nid l hl
    induction l with
    | nil => rfl
    | cons a as ih =>
        have ha : a.data.ID ≠ nid := hl a (by simp)
        have ih' := ih (fun x hx => hl x (by simp [hx]))
        simp [NotificationData.ack, ha, ih']

/-- Witness for C8 at concrete input: in a shard holding three entities —
a non-matching one, a first match for ID 7, and a later duplicate with the
same ID 7 — `ack 7` removes only the first match and keeps the
duplicate. -/
theorem ack_deletes_first_match_only_witness :
    NotificationData.ack 7
        [⟨10, ⟨3, "Done", "a", 10, none⟩, 10⟩,
         ⟨9, ⟨7, "Done", "b", 9, none⟩, 9⟩,
         ⟨8, ⟨7, "Done", "c", 8, none⟩, 8⟩]
      = [⟨10, ⟨3, "Done", "a", 10, none⟩, 10⟩,
         ⟨8, ⟨7, "Done", "c", 8, none⟩, 8⟩] :=
  ack_deletes_first_match_only.1 7
    [⟨10, ⟨3, "Done", "a", 10, none⟩, 10⟩]
    [⟨8, ⟨7, "Done", "c", 8, none⟩, 8⟩]
    ⟨9, ⟨7, "Done", "b", 9, none⟩, 9⟩
    (by decide) rfl

/-- C10: for a command string that is not one of the four table entries,
`Scheduler.add`, `Scheduler.create_notification` and
`Scheduler.get_command_entity` touch nothing: the state (both shards and
the clock) is returned unchanged and `get_command_entity` returns
`None`. -/
theorem invalid_command_operations_are_noops
    (s : SchedState) (command : String) (now : Nat) (repeat_hours : Int)
    (h : command ∉ [Scheduler.check_fluid_command,
        Scheduler.take_measurements_command,
        Scheduler.harvest_plant_command,
        Scheduler.prune_plant_command]) :
    Scheduler.add now command repeat_hours s = s
      ∧ Scheduler.create_notification command s = s
      ∧ Scheduler.get_command_entity command s = none := by
  simp only [List.mem_cons, List.not_mem_nil, or_false, not_or] at h
  obtain ⟨h1, h2, h3, h4⟩ := h
  have hl : Scheduler.commandsLookup command = none := by
    simp [Scheduler.commandsLookup, Scheduler.commands,
      Ne.symm h1, Ne.symm h2, Ne.symm h3, Ne.symm h4]
  refine ⟨?_, ?_, ?_⟩
  · simp [Scheduler.add, hl]
  · simp [Scheduler.create_notification, hl]
  · simp [Scheduler.get_command_entity, Scheduler.validate_command, hl]

/-- C4: for a device whose schedule holds a single due one-shot entry
(`repeat = 0`, `run_at ≤ now`, a valid stored command), calling `check`
twice with no time advance fires exactly once: the first call empties the
schedule and adds exactly one notification, and the second call changes
nothing.  (The freshness hypothesis is the wall-clock invariant: the clock
strictly exceeds every stored save timestamp.) -/
theorem check_twice_one_shot_fires_once
    (s : SchedState) (e : Entity CmdDict) (c : String) (now : Nat)
    (hsched : s.schedule = [e])
    (hcmd : e.data.command = some c)
    (hvalid : Scheduler.validate_command (some c) = true)
    (hone : e.data.repeat_ = 0)
    (hdue : e.data.run_at ≤ now)
    (hfresh : ∀ x ∈ s.notifications, x.key < s.clock) :
    (Scheduler.check now s).schedule = []
      ∧ Scheduler.check now (Scheduler.check now s) = Scheduler.check now s
      ∧ (Scheduler.check now s).notifications.length
          = s.notifications.length + 1 := by
  have hput : dsPut
      (⟨s.clock,
        { ID := s.clock, ntype := "Done", message := e.data.message,
          created := s.clock, URL := e.data.URL }, s.clock⟩ :
        Entity NotifDict) s.notifications
      = ⟨s.clock,
          { ID := s.clock, ntype := "Done", message := e.data.message,
            created := s.clock, URL := e.data.URL }, s.clock⟩
        :: s.notifications :=
    dsPut_fresh _ _ hfresh
  have h1 : Scheduler.check now s =
      { schedule := [],
        notifications :=
          ⟨s.clock,
            { ID := s.clock, ntype := "Done", message := e.data.message,
              created := s.clock, URL := e.data.URL }, s.clock⟩
          :: s.notifications,
        clock := s.clock + 1 } := by
    simp [Scheduler.check, hsched, Scheduler.checkLoop, hcmd, hdue,
      Scheduler.execute, hone, Scheduler.remove_command_opt,
      Scheduler.remove_command, Scheduler.get_command_entity, hvalid,
      NotificationData.add, save_notification_data, id_generator, hput]
  refine ⟨by simp [h1], ?_, by simp [h1]⟩
  rw [h1]
  simp [Scheduler.check, Scheduler.checkLoop]

/-- Witness for C4: a due one-shot `harvest_plant` entry, checked twice at
time 5. -/
theorem check_twice_one_shot_fires_once_witness :
    (Scheduler.check 5
        ⟨[⟨3, ⟨some "harvest_plant", "Time to harvest your plant", 5, 0, 0,
            none⟩, 3⟩], [], 4⟩).schedule = []
      ∧ Scheduler.check 5 (Scheduler.check 5
            ⟨[⟨3, ⟨some "harvest_plant", "Time to harvest your plant", 5, 0,
                0, none⟩, 3⟩], [], 4⟩)
          = Scheduler.check 5
              ⟨[⟨3, ⟨some "harvest_plant", "Time to harvest your plant", 5,
                  0, 0, none⟩, 3⟩], [], 4⟩
      ∧ (Scheduler.check 5
            ⟨[⟨3, ⟨some "harvest_plant", "Time to harvest your plant", 5, 0,
                0, none⟩, 3⟩], [], 4⟩).notifications.length = 0 + 1 :=
  check_twice_one_shot_fires_once
    ⟨[⟨3, ⟨some "harvest_plant", "Time to harvest your plant", 5, 0, 0,
        none⟩, 3⟩], [], 4⟩
    ⟨3, ⟨some "harvest_plant", "Time to harvest your plant", 5, 0, 0,
        none⟩, 3⟩
    "harvest_plant" 5 rfl rfl (by decide) rfl (by decide)
    (by intro x hx; simp at hx)

/-- Witness for C10 at the concrete command "water_plant". -/
theorem invalid_command_operations_are_noops_witness :
    Scheduler.add 5 "water_plant" (-1) emptySchedState = emptySchedState
      ∧ Scheduler.create_notification "water_plant" emptySchedState
          = emptySchedState
      ∧ Scheduler.get_command_entity "water_plant" emptySchedState = none :=
  invalid_command_operations_are_noops emptySchedState "water_plant" 5 (-1)
    (by decide)

/-- C5 (counterexample): the claim says every `get_current_*` operation on
a device with no stored data returns an empty list, dict or string; but
`get_current_float_value_from_DS` (and so `get_current_CO2_value` and its
siblings) returns `None` — its own docstring's "a float or None" — which is
none of those shapes. -/
theorem get_current_CO2_value_returns_none_not_empty_string :
    get_current_CO2_value emptyDeviceDataStore (some "dev-1") = none
      ∧ (none : Option String) ≠ some "" := by
  exact ⟨rfl, by simp⟩

/-- C5 (amended): for every device with no stored data (no `DeviceData`
entity under its uuid), each history reader returns its empty shape — `[]`
for `get_co2_history` and `get_led_panel_history`, `{'RH': [], 'temp': []}`
for `get_temp_and_humidity_history` — and every `get_current_*` reader
returns `None` (not an empty string); all are total on these inputs (no
error is raised). -/
theorem no_data_getters_return_empty_shapes
    (store : DeviceDataStore) (device_uuid : String)
    (hstore : store device_uuid = none) :
    get_co2_history store (some device_uuid) = []
      ∧ get_led_panel_history store (some device_uuid) = []
      ∧ get_temp_and_humidity_history store (some device_uuid)
          = { RH := [], temp := [] }
      ∧ get_current_CO2_value store (some device_uuid) = none
      ∧ get_current_temp_value store (some device_uuid) = none
      ∧ get_current_RH_value store (some device_uuid) = none
      ∧ get_current_EC_value store (some device_uuid) = none
      ∧ get_current_pH_value store (some device_uuid) = none
      ∧ get_current_h2o_temp_value store (some device_uuid) = none := by
  by_cases hu : device_uuid == "None" <;>
    simp [get_co2_history, get_led_panel_history,
      get_temp_and_humidity_history, get_current_CO2_value,
      get_current_temp_value, get_current_RH_value, get_current_EC_value,
      get_current_pH_value, get_current_h2o_temp_value,
      get_current_float_value_from_DS, hu, hstore]

/-- Witness for the amended C5 theorem on a store with no entity at all. -/
theorem no_data_getters_return_empty_shapes_witness :
    get_co2_history emptyDeviceDataStore (some "dev-1") = []
      ∧ get_led_panel_history emptyDeviceDataStore (some "dev-1") = []
      ∧ get_temp_and_humidity_history emptyDeviceDataStore (some "dev-1")
          = { RH := [], temp := [] }
      ∧ get_current_CO2_value emptyDeviceDataStore (some "dev-1") = none
      ∧ get_current_temp_value emptyDeviceDataStore (some "dev-1") = none
      ∧ get_current_RH_value emptyDeviceDataStore (some "dev-1") = none
      ∧ get_current_EC_value emptyDeviceDataStore (some "dev-1") = none
      ∧ get_current_pH_value emptyDeviceDataStore (some "dev-1") = none
      ∧ get_current_h2o_temp_value emptyDeviceDataStore (some "dev-1")
          = none :=
  no_data_getters_return_empty_shapes emptyDeviceDataStore "dev-1" rfl

/-- C6 (counterexample): the claim says `validate_message` accepts only
messages carrying *every* mandatory field of their type (`var` *and*
`values` for `EnvVar`); the code joins the mandatory-key checks with `or`,
so an `EnvVar` message carrying `var` but no `values` key validates. -/
theorem validate_message_accepts_missing_values_key :
    MQTTMessaging.validate_message
        { messageType := some "EnvVar", var := some "air_temperature_celsius",
          values := none, varName := none, imageType := none,
          fileName := none, action := none, name := none } = true
      ∧ ({ messageType := some "EnvVar",
           var := some "air_temperature_celsius",
           values := none, varName := none, imageType := none,
           fileName := none, action := none, name := none } :
            MQTTMessaging.Message).values = none := by
  exact ⟨rfl, rfl⟩

/-- C6 (amended): `validate_message` returns `True` iff the message carries
a recognized `messageType` discriminator (`EnvVar`, `CommandReply`,
`Image`, `ImageUpload`, `RecipeEvent`) and contains *at least one* field of
that type's mandatory-field set (`var`/`values` for `EnvVar` and
`CommandReply`; `varName`/`imageType`/`fileName` for the image types;
`action`/`name` for `RecipeEvent`); and `parse` drops any message failing
validation without performing any write. -/
theorem validate_message_iff_and_parse_drops_invalid :
    (∀ m : MQTTMessaging.Message,
        MQTTMessaging.validate_message m = true ↔
          ∃ mt, m.messageType = some mt
            ∧ (mt = "EnvVar" ∨ mt = "CommandReply" ∨ mt = "Image"
                ∨ mt = "ImageUpload" ∨ mt = "RecipeEvent")
            ∧ ((mt = "EnvVar" ∨ mt = "CommandReply") →
                (m.var ≠ none ∨ m.values ≠ none))
            ∧ ((mt = "Image" ∨ mt = "ImageUpload") →
                (m.varName ≠ none ∨ m.imageType ≠ none
                  ∨ m.fileName ≠ none))
            ∧ (mt = "RecipeEvent" → (m.action ≠ none ∨ m.name ≠ none)))
    ∧ (∀ (device_ID : String) (m : MQTTMessaging.Message),
        MQTTMessaging.validate_message m = false →
          MQTTMessaging.parse device_ID m = []) := by
  constructor
  · intro m
    cases hmt : m.messageType with
    | none => simp [MQTTMessaging.validate_message, hmt]
    | some t =>
        by_cases h1 : t = "EnvVar"
        · subst h1
          simp [MQTTMessaging.validate_message,
            MQTTMessaging.get_message_type, hmt,
            MQTTMessaging.messageType_EnvVar,
            MQTTMessaging.messageType_CommandReply,
            MQTTMessaging.messageType_Image,
            MQTTMessaging.messageType_ImageUpload,
            MQTTMessaging.messageType_RecipeEvent,
            Option.isSome_iff_ne_none]
        · by_cases h2 : t = "CommandReply"
          · subst h2
            simp [MQTTMessaging.validate_message,
              MQTTMessaging.get_message_type, hmt,
              MQTTMessaging.messageType_EnvVar,
              MQTTMessaging.messageType_CommandReply,
              MQTTMessaging.messageType_Image,
              MQTTMessaging.messageType_ImageUpload,
              MQTTMessaging.messageType_RecipeEvent,
              Option.isSome_iff_ne_none]
          · by_cases h3 : t = "Image"
            · subst h3
              simp [MQTTMessaging.validate_message,
                MQTTMessaging.get_message_type, hmt,
                MQTTMessaging.messageType_EnvVar,
                MQTTMessaging.messageType_CommandReply,
                MQTTMessaging.messageType_Image,
                MQTTMessaging.messageType_ImageUpload,
                MQTTMessaging.messageType_RecipeEvent,
                Option.isSome_iff_ne_none, or_assoc]
            · by_cases h4 : t = "ImageUpload"
              · subst h4
                simp [MQTTMessaging.validate_message,
                  MQTTMessaging.get_message_type, hmt,
                  MQTTMessaging.messageType_EnvVar,
                  MQTTMessaging.messageType_CommandReply,
                  MQTTMessaging.messageType_Image,
                  MQTTMessaging.messageType_ImageUpload,
                  MQTTMessaging.messageType_RecipeEvent,
                  Option.isSome_iff_ne_none, or_assoc]
              · by_cases h5 : t = "RecipeEvent"
                · subst h5
                  simp [MQTTMessaging.validate_message,
                    MQTTMessaging.get_message_type, hmt,
                    MQTTMessaging.messageType_EnvVar,
                    MQTTMessaging.messageType_CommandReply,
                    MQTTMessaging.messageType_Image,
                    MQTTMessaging.messageType_ImageUpload,
                    MQTTMessaging.messageType_RecipeEvent,
                    Option.isSome_iff_ne_none]
                · simp [MQTTMessaging.validate_message,
                    MQTTMessaging.get_message_type, hmt,
                    MQTTMessaging.messageType_EnvVar,
                    MQTTMessaging.messageType_CommandReply,
                    MQTTMessaging.messageType_Image,
                    MQTTMessaging.messageType_ImageUpload,
                    MQTTMessaging.messageType_RecipeEvent,
                    h1, h2, h3, h4, h5]
  · intro device_ID m h
    simp [MQTTMessaging.parse, h]

/-- Witness for the amended C6 theorem: a message with no `messageType`
key fails validation, and `parse` performs no write on it. -/
theorem validate_message_iff_witness :
    MQTTMessaging.parse "dev-1"
        { messageType := none, var := some "x", values := some "y",
          varName := none, imageType := none, fileName := none,
          action := none, name := none } = [] :=
  validate_message_iff_and_parse_drops_invalid.2 "dev-1"
    { messageType := none, var := some "x", values := some "y",
      varName := none, imageType := none, fileName := none,
      action := none, name := none } rfl

end CloudCommon
